import Mathlib

/-!
Shallow embedding of the session-scoped OAuth token lifecycle of the
experiment-mcp repository: the Redis-backed token store
(src/app/utils/redis.ts: storeTokens / getTokens), the authenticated
client factory (GoogleAPIService.getAuthenticatedClient), the OAuth
callback endpoint (src/pages/auth/callback.ts), the auth status
resource (createAuthResource().read, both variants), and the MCP tool
invocation wrapper (src/app/[transport]/route.ts).

Conventions of the embedding: the Redis keyspace is an association list
of key/JSON-value pairs; effectful calls that can throw are modelled in
the Except monad with the thrown message as the error; JavaScript's
Date.now() and crypto.randomUUID() are explicit parameters; numbers are
integers (all numbers touched by this code are integral epoch
timestamps).
-/

namespace ExperimentMcp

/-- JSON values as produced by JSON.stringify and consumed by
JSON.parse. Object fields are an ordered list; the first binding of a
key wins on lookup. -/
inductive Json where
  | str (s : String)
  | num (n : Int)
  | bool (b : Bool)
  | null
  | arr (elems : List Json)
  | obj (fields : List (String × Json))

/-- Token bundle persisted by the OAuth callback and read back by the
factory and the status resource (interface GoogleTokens in the service
files, plus expiry_date, the expiry field actually present on Google
token responses). Every field is optional because the parsed JSON
object may lack any of them; a JavaScript read of a missing property
yields undefined, modelled as none. -/
structure GoogleTokens where
  access_token : Option String
  refresh_token : Option String
  scope : Option String
  token_type : Option String
  expiry_date : Option Int
  expires_at : Option Int
deriving DecidableEq

/-- Key lookup in a JSON object's field list, first match wins. -/
def jget : List (String × Json) → String → Option Json
  | [], _ => none
  | (k, v) :: rest, key => if k = key then some v else jget rest key

/-- Property list of a JSON value: a non-object has no properties, so
every read on it yields undefined. -/
def Json.fieldList : Json → List (String × Json)
  | .obj fs => fs
  | _ => []

/-- Read a property expected to be a string; anything else reads as
undefined for the typed field. -/
def asStr : Option Json → Option String
  | some (.str s) => some s
  | _ => none

/-- Read a property expected to be a number. -/
def asNum : Option Json → Option Int
  | some (.num n) => some n
  | _ => none

/-- Emit a JSON object entry only when the value is present:
JSON.stringify omits properties whose value is undefined. -/
def optEntry (key : String) : Option Json → List (String × Json)
  | none => []
  | some v => [(key, v)]

/-- JSON.stringify of a token bundle, as written by storeTokens. -/
def GoogleTokens.toJson (t : GoogleTokens) : Json :=
  .obj (optEntry "access_token" (t.access_token.map .str) ++
        optEntry "refresh_token" (t.refresh_token.map .str) ++
        optEntry "scope" (t.scope.map .str) ++
        optEntry "token_type" (t.token_type.map .str) ++
        optEntry "expiry_date" (t.expiry_date.map .num) ++
        optEntry "expires_at" (t.expires_at.map .num))

/-- Duck-typed field reads performed on the object JSON.parse returns:
a missing property, a property of the wrong shape, or a non-object
value reads as undefined (none). -/
def GoogleTokens.ofJson (j : Json) : GoogleTokens where
  access_token := asStr (jget j.fieldList "access_token")
  refresh_token := asStr (jget j.fieldList "refresh_token")
  scope := asStr (jget j.fieldList "scope")
  token_type := asStr (jget j.fieldList "token_type")
  expiry_date := asNum (jget j.fieldList "expiry_date")
  expires_at := asNum (jget j.fieldList "expires_at")

/-- The Redis keyspace: stored JSON values by key, most recent write
first (setEx replaces any prior value because lookup takes the first
match). The 30-day TTL is not modelled; no claim depends on it. -/
abbrev Store := List (String × Json)

/-- redis.get on the keyspace. -/
def storeGet (store : Store) (key : String) : Option Json := jget store key

/-- storeTokens (src/app/utils/redis.ts): setEx of
JSON.stringify(tokens) under the key oauth_tokens:userId. -/
def storeTokens (userId : String) (tokens : GoogleTokens) (store : Store) : Store :=
  ("oauth_tokens:" ++ userId, tokens.toJson) :: store

/-- getTokens (src/app/utils/redis.ts): get the key, JSON.parse the
stored string; null (none) when the key is absent. -/
def getTokens (userId : String) (store : Store) : Option GoogleTokens :=
  (storeGet store ("oauth_tokens:" ++ userId)).map GoogleTokens.ofJson

/-- Process-wide configuration: the fields of the validated env object
(src/app/config/env.ts) that the token lifecycle reads. -/
structure EnvConfig where
  GOOGLE_MCP_SESSION_ID : String
  GOOGLE_CLIENT_ID : String
  GOOGLE_CLIENT_SECRET : String
  GOOGLE_REDIRECT_URI : String
deriving DecidableEq

/-- An OAuth2 API client as configured by getAuthenticatedClient: the
process-wide client identity passed to the google.auth.OAuth2
constructor, plus the credentials installed by setCredentials. -/
structure OAuth2Client where
  clientId : String
  clientSecret : String
  redirectUri : String
  access_token : Option String
  refresh_token : Option String
deriving DecidableEq

/-- Sentinel substitution performed at the top of
GoogleAPIService.getAuthenticatedClient: if (sessionId === "default")
then sessionId = env.GOOGLE_MCP_SESSION_ID. -/
def resolveSessionId (env : EnvConfig) (sessionId : String) : String :=
  if sessionId = "default" then env.GOOGLE_MCP_SESSION_ID else sessionId

/-- The expiry test: Date.now() >= tokens.expires_at * 1000. When the
parsed bundle has no expires_at property, the JavaScript product
undefined * 1000 is NaN and the comparison evaluates to false, so the
record is treated as unexpired; the none branch encodes exactly that. -/
def isTokenExpired (now : Int) (tokens : GoogleTokens) : Bool :=
  match tokens.expires_at with
  | none => false
  | some e => decide (now ≥ e * 1000)

/-- Error message thrown when no tokens are stored for the session. -/
def notAuthenticatedMsg : String :=
  "No authentication tokens found. Please authenticate first."

/-- Error message thrown when the stored record is expired. -/
def tokenExpiredMsg : String :=
  "Token expired. Please re-authenticate."

/-- GoogleAPIService.getAuthenticatedClient (the variants that perform
sentinel substitution): resolve the session id, read
oauth_tokens:sessionId from Redis, throw if absent, JSON.parse, throw
if the expiry test fires, else return an OAuth2 client configured with
the stored access and refresh tokens. Time and store are explicit. -/
def getAuthenticatedClient (env : EnvConfig) (store : Store) (now : Int)
    (sessionId : String) : Except String OAuth2Client :=
  match storeGet store ("oauth_tokens:" ++ resolveSessionId env sessionId) with
  | none => .error notAuthenticatedMsg
  | some j =>
    if isTokenExpired now (GoogleTokens.ofJson j) then .error tokenExpiredMsg
    else .ok { clientId := env.GOOGLE_CLIENT_ID,
               clientSecret := env.GOOGLE_CLIENT_SECRET,
               redirectUri := env.GOOGLE_REDIRECT_URI,
               access_token := (GoogleTokens.ofJson j).access_token,
               refresh_token := (GoogleTokens.ofJson j).refresh_token }

/-- GoogleAPIService.getAuthenticatedClient in the service-file variant
that performs no sentinel substitution: its sessionId parameter
defaults to "default" and flows verbatim into the store key
oauth_tokens:sessionId, so a defaulted call reads the literal key
oauth_tokens:default. The absent-record, expiry and client-construction
logic is identical to the substituting variants. -/
def getAuthenticatedClientLegacy (env : EnvConfig) (store : Store) (now : Int)
    (sessionId : String := "default") : Except String OAuth2Client :=
  match storeGet store ("oauth_tokens:" ++ sessionId) with
  | none => .error notAuthenticatedMsg
  | some j =>
    if isTokenExpired now (GoogleTokens.ofJson j) then .error tokenExpiredMsg
    else .ok { clientId := env.GOOGLE_CLIENT_ID,
               clientSecret := env.GOOGLE_CLIENT_SECRET,
               redirectUri := env.GOOGLE_REDIRECT_URI,
               access_token := (GoogleTokens.ofJson j).access_token,
               refresh_token := (GoogleTokens.ofJson j).refresh_token }

/-- A concrete provider token bundle of the shape Google's token
endpoint returns: it carries expiry_date in epoch milliseconds and has
no expires_at property. -/
def sampleProviderTokens : GoogleTokens :=
  { access_token := some "a", refresh_token := some "b",
    scope := some "scope-a scope-b", token_type := some "Bearer",
    expiry_date := some 1700003600000, expires_at := none }

/-- A query-string value as Next.js delivers it in req.query: a string,
or an array of strings for a repeated parameter. -/
inductive QueryVal where
  | str (s : String)
  | arr (l : List String)
deriving DecidableEq

/-- String coercion applied when a query value reaches a string
position (the template literal in the store key): an array joins its
elements with commas. -/
def QueryVal.coerce : QueryVal → String
  | .str s => s
  | .arr l => String.intercalate "," l

/-- res.json serialization of a query value. -/
def QueryVal.toJson : QueryVal → Json
  | .str s => .str s
  | .arr l => .arr (l.map Json.str)

/-- The query parameters of the OAuth callback request. -/
structure CallbackQuery where
  code : Option QueryVal
  state : Option QueryVal
deriving DecidableEq

/-- pages/auth/callback.ts handler. The provider code exchange
(oauth2Client.getToken) is a parameter, as is the randomUUID() value
generateSessionId would produce. Returns the HTTP status, the JSON
response body and the store after the run. The sessionId computation
models req.query.state || generateSessionId(): undefined and the empty
string fall through to the generated id, while any array (even empty)
is truthy and is kept. -/
def callbackHandler (exchange : String → Except String GoogleTokens) (freshId : String)
    (query : CallbackQuery) (store : Store) : (Nat × Json) × Store :=
  match query.code with
  | some (.str c) =>
    if c = "" then
      ((400, Json.obj [("error", .str "Invalid authorization code")]), store)
    else
      match exchange c with
      | .error _ => ((500, Json.obj [("error", .str "Failed to authenticate")]), store)
      | .ok tokens =>
        let sessionId : QueryVal :=
          match query.state with
          | some (.str s) => if s = "" then .str freshId else .str s
          | some (.arr l) => .arr l
          | none => .str freshId
        ((200,
          Json.obj [("success", .bool true),
                    ("sessionId", sessionId.toJson),
                    ("message", .str "OAuth authentication successful")]),
         storeTokens sessionId.coerce tokens store)
  | _ => ((400, Json.obj [("error", .str "Invalid authorization code")]), store)

/-- One content item of an MCP resource read response; the text holds
the JSON document handed to JSON.stringify. -/
structure ResourceContent where
  uri : String
  text : Json
  mimeType : String

/-- The envelope returned by createAuthResource().read. -/
structure ResourceResponse where
  contents : List ResourceContent

/-- JavaScript double negation on an optional string property:
undefined and the empty string are falsy. -/
def jsTruthyStr : Option String → Bool
  | none => false
  | some s => decide (s ≠ "")

/-- tokens.scope?.split(" ") || []: undefined scope yields the empty
list; a present scope (even "") is split on single spaces. -/
def scopesJson : Option String → Json
  | none => .arr []
  | some s => .arr ((s.splitOn " ").map .str)

/-- authData built by the hard-coded-session read variant when no
tokens are stored. -/
def authDataMissing (sessionId : String) : Json :=
  .obj [("authenticated", .bool false),
        ("message", .str notAuthenticatedMsg),
        ("authUrl", .str "/auth/login"),
        ("sessionId", .str sessionId)]

/-- authData built by the hard-coded-session read variant when tokens
are present: tokenType and expiresAt are omitted by JSON.stringify when
the underlying property is undefined. -/
def authDataPresent (sessionId : String) (t : GoogleTokens) : Json :=
  .obj ([("authenticated", .bool true), ("sessionId", .str sessionId)] ++
        optEntry "tokenType" (t.token_type.map .str) ++
        [("hasAccessToken", .bool (jsTruthyStr t.access_token)),
         ("hasRefreshToken", .bool (jsTruthyStr t.refresh_token))] ++
        optEntry "expiresAt" (t.expiry_date.map .num) ++
        [("scopes", scopesJson t.scope),
         ("authUrl", .str "/auth/login")])

/-- authData returned by the catch-all handler of both read variants. -/
def unavailableAuthData : Json :=
  .obj [("authenticated", .bool false),
        ("error", .str "Failed to read authentication status"),
        ("message", .str "Authentication service unavailable"),
        ("authUrl", .str "/auth/login")]

/-- Wrap an authData document as the single resource content. -/
def resourceEnvelope (doc : Json) : ResourceResponse :=
  ⟨[⟨"auth://oauth/google", doc, "application/json"⟩]⟩

/-- try-block body of createAuthResource().read in the variant that
hard-codes sessionId = "default" and calls getTokens with it; the
fallible store access is the Except-valued storeResult. -/
def authResourceReadTry (storeResult : Except String Store) :
    Except String ResourceResponse :=
  match storeResult with
  | .error e => .error e
  | .ok store =>
    match getTokens "default" store with
    | none => .ok (resourceEnvelope (authDataMissing "default"))
    | some t => .ok (resourceEnvelope (authDataPresent "default" t))

/-- createAuthResource().read (hard-coded-session variant) with its
catch-all handler: any error becomes the service-unavailable document. -/
def authResourceRead (storeResult : Except String Store) : ResourceResponse :=
  match authResourceReadTry storeResult with
  | .ok resp => resp
  | .error _ => resourceEnvelope unavailableAuthData

/-- authData of the env-configured read variant when tokens are
present: expiresAt is tokens.expiry_date || null, so a falsy expiry
(undefined or 0) becomes null and the key is always present. -/
def expiresAtOrNull : Option Int → Json
  | none => .null
  | some d => if d = 0 then .null else .num d

/-- authData of the env-configured read variant when tokens are
present. -/
def authDataPresentEnv (sessionId : String) (t : GoogleTokens) : Json :=
  .obj ([("authenticated", .bool true), ("sessionId", .str sessionId)] ++
        optEntry "tokenType" (t.token_type.map .str) ++
        [("hasAccessToken", .bool (jsTruthyStr t.access_token)),
         ("hasRefreshToken", .bool (jsTruthyStr t.refresh_token)),
         ("expiresAt", expiresAtOrNull t.expiry_date),
         ("scopes", scopesJson t.scope),
         ("authUrl", .str "/auth/login")])

/-- authData returned by the env-configured read variant when the
configured session id is falsy. -/
def noSessionAuthData : Json :=
  .obj [("authenticated", .bool false),
        ("error", .str "No session ID found."),
        ("message", .str "Please log in and set your session ID in the Cursor Secrets section as MCP_SESSION_ID."),
        ("authUrl", .str "/auth/login")]

/-- try-block body of the env-configured createAuthResource().read
variant: the session id comes from env.GOOGLE_MCP_SESSION_ID; when no
tokens are found the scope-logging statement dereferences the null
tokens value and raises a TypeError, so the absent-tokens case exits
through the catch handler. -/
def authResourceReadEnvTry (env : EnvConfig) (storeResult : Except String Store) :
    Except String ResourceResponse :=
  if env.GOOGLE_MCP_SESSION_ID = "" then
    .ok (resourceEnvelope noSessionAuthData)
  else
    match storeResult with
    | .error e => .error e
    | .ok store =>
      match getTokens env.GOOGLE_MCP_SESSION_ID store with
      | none => .error "TypeError: cannot read scope of null"
      | some t => .ok (resourceEnvelope (authDataPresentEnv env.GOOGLE_MCP_SESSION_ID t))

/-- createAuthResource().read (env-configured variant) with its
catch-all handler. -/
def authResourceReadEnv (env : EnvConfig) (storeResult : Except String Store) :
    ResourceResponse :=
  match authResourceReadEnvTry env storeResult with
  | .ok resp => resp
  | .error _ => resourceEnvelope unavailableAuthData

/-- First (and only) JSON document of a resource response. -/
def ResourceResponse.firstDoc (r : ResourceResponse) : Json :=
  match r.contents with
  | c :: _ => c.text
  | [] => .null

/-- Read a boolean property of a JSON document. -/
def Json.getBoolField (j : Json) (key : String) : Option Bool :=
  match jget j.fieldList key with
  | some (.bool b) => some b
  | _ => none

/-- A stored record used by concrete instantiations below. -/
def wTokens : GoogleTokens :=
  { access_token := some "atk", refresh_token := some "rtk",
    scope := some "scope-a scope-b", token_type := some "Bearer",
    expiry_date := some 1700003600000, expires_at := some 1700000000 }

/-- A store whose single entry sits under the literal key
oauth_tokens:default. -/
def defaultKeyStore : Store := [("oauth_tokens:default", wTokens.toJson)]

/-- A concrete configuration used by witness instantiations. -/
def wEnv : EnvConfig :=
  { GOOGLE_MCP_SESSION_ID := "cfg-session", GOOGLE_CLIENT_ID := "client-id",
    GOOGLE_CLIENT_SECRET := "client-secret",
    GOOGLE_REDIRECT_URI := "http://localhost/auth/callback" }

/-- One content item of a tool invocation response. -/
structure ToolContent where
  type : String
  text : Json

/-- The envelope a registered tool handler returns to the MCP layer. -/
structure ToolResponse where
  content : List ToolContent

/-- try-block of the per-tool wrapper installed by registerTools in
src/app/[transport]/route.ts: Zod schema validation and then the tool
handler, both of which may throw; on success the JSON result is wrapped
as a single text content. -/
def toolCallTry (validate handlerFn : Json → Except String Json) (args : Json) :
    Except String ToolResponse :=
  match validate args with
  | .error e => .error e
  | .ok validatedArgs =>
    match handlerFn validatedArgs with
    | .error e => .error e
    | .ok result => .ok ⟨[⟨"text", result⟩]⟩

/-- The wrapper with its catch: any thrown error becomes a text content
whose JSON body is success: false with the error message. -/
def toolCall (validate handlerFn : Json → Except String Json) (args : Json) :
    ToolResponse :=
  match toolCallTry validate handlerFn args with
  | .ok resp => resp
  | .error e => ⟨[⟨"text", Json.obj [("success", .bool false), ("error", .str e)]⟩]⟩

theorem ofJson_toJson (t : GoogleTokens) : GoogleTokens.ofJson t.toJson = t := by
  obtain ⟨a, r, s, ty, ed, ea⟩ := t
  cases a <;> cases r <;> cases s <;> cases ty <;> cases ed <;> cases ea <;> rfl

theorem getTokens_storeTokens_eq (s : String) (r : GoogleTokens) (store : Store) :
    getTokens s (storeTokens s r store) = some r := by
  simp [getTokens, storeTokens, storeGet, jget, ofJson_toJson]

/-- C7: for every session key s and record r, get(s) immediately after
put(s, r) returns a record equal to r in all fields; JSON serialization
followed by the duck-typed deserialization is the identity on stored
records. -/
theorem getTokens_after_storeTokens (s : String) (r : GoogleTokens) (store : Store) :
    getTokens s (storeTokens s r store) = some r :=
  getTokens_storeTokens_eq s r store

theorem isTokenExpired_iff (now : Int) (t : GoogleTokens) :
    isTokenExpired now t = true ↔ ∃ e, t.expires_at = some e ∧ now ≥ e * 1000 := by
  unfold isTokenExpired
  cases t.expires_at <;> simp

theorem getAuthenticatedClient_of_none (env : EnvConfig) (store : Store) (now : Int)
    (sid : String)
    (h : storeGet store ("oauth_tokens:" ++ resolveSessionId env sid) = none) :
    getAuthenticatedClient env store now sid = .error notAuthenticatedMsg := by
  unfold getAuthenticatedClient
  rw [h]

theorem getAuthenticatedClient_of_some (env : EnvConfig) (store : Store) (now : Int)
    (sid : String) (j : Json)
    (h : storeGet store ("oauth_tokens:" ++ resolveSessionId env sid) = some j) :
    getAuthenticatedClient env store now sid =
      if isTokenExpired now (GoogleTokens.ofJson j) then .error tokenExpiredMsg
      else .ok ⟨env.GOOGLE_CLIENT_ID, env.GOOGLE_CLIENT_SECRET, env.GOOGLE_REDIRECT_URI,
                (GoogleTokens.ofJson j).access_token,
                (GoogleTokens.ofJson j).refresh_token⟩ := by
  unfold getAuthenticatedClient
  rw [h]

theorem notAuthenticatedMsg_ne_tokenExpiredMsg : notAuthenticatedMsg ≠ tokenExpiredMsg := by
  decide

/-- C3: authenticate(s) fails with the NotAuthenticated error, whose
message directs the caller to authenticate first, exactly when the
store has no entry for the resolved key at call time. -/
theorem getAuthenticatedClient_notAuthenticated_iff (env : EnvConfig) (store : Store)
    (now : Int) (sid : String) :
    getAuthenticatedClient env store now sid =
        .error "No authentication tokens found. Please authenticate first." ↔
      storeGet store ("oauth_tokens:" ++ resolveSessionId env sid) = none := by
  cases h : storeGet store ("oauth_tokens:" ++ resolveSessionId env sid) with
  | none =>
    rw [getAuthenticatedClient_of_none env store now sid h]
    simp [notAuthenticatedMsg]
  | some j =>
    rw [getAuthenticatedClient_of_some env store now sid j h]
    constructor
    · intro hc
      by_cases hexp : isTokenExpired now (GoogleTokens.ofJson j)
      · rw [if_pos hexp] at hc
        exact absurd (Except.error.inj hc).symm notAuthenticatedMsg_ne_tokenExpiredMsg
      · rw [if_neg hexp] at hc
        cases hc
    · intro hc
      cases hc

/-- C1: authenticate(s) fails with the TokenExpired error exactly when
a record exists under the resolved key and now is at or past the
record's expiry (the code's unit convention: expires_at in epoch
seconds, compared as now >= expires_at * 1000 against the millisecond
clock); when a record exists and is unexpired, it succeeds with a
client carrying the process OAuth identity and that record's access and
refresh tokens. -/
theorem getAuthenticatedClient_tokenExpired_iff (env : EnvConfig) (store : Store)
    (now : Int) (sid : String) :
    (getAuthenticatedClient env store now sid =
        .error "Token expired. Please re-authenticate." ↔
      ∃ j, storeGet store ("oauth_tokens:" ++ resolveSessionId env sid) = some j ∧
        ∃ e, (GoogleTokens.ofJson j).expires_at = some e ∧ now ≥ e * 1000) ∧
    (∀ j, storeGet store ("oauth_tokens:" ++ resolveSessionId env sid) = some j →
      isTokenExpired now (GoogleTokens.ofJson j) = false →
      getAuthenticatedClient env store now sid =
        .ok ⟨env.GOOGLE_CLIENT_ID, env.GOOGLE_CLIENT_SECRET, env.GOOGLE_REDIRECT_URI,
             (GoogleTokens.ofJson j).access_token,
             (GoogleTokens.ofJson j).refresh_token⟩) := by
  constructor
  · cases h : storeGet store ("oauth_tokens:" ++ resolveSessionId env sid) with
    | none =>
      rw [getAuthenticatedClient_of_none env store now sid h]
      constructor
      · intro hc
        exact absurd (Except.error.inj hc) notAuthenticatedMsg_ne_tokenExpiredMsg
      · rintro ⟨j, hj, -⟩
        cases hj
    | some j =>
      rw [getAuthenticatedClient_of_some env store now sid j h]
      constructor
      · intro hc
        by_cases hexp : isTokenExpired now (GoogleTokens.ofJson j)
        · exact ⟨j, rfl, (isTokenExpired_iff now _).mp hexp⟩
        · rw [if_neg hexp] at hc
          cases hc
      · rintro ⟨j', hj', he⟩
        have hj2 : j' = j := (Option.some.inj hj').symm
        subst hj2
        rw [if_pos ((isTokenExpired_iff now _).mpr he)]
        rfl
  · intro j hj hexp
    rw [getAuthenticatedClient_of_some env store now sid j hj, hexp]
    simp

/-- C8: a bundle persisted by the completion endpoint carries
expiry_date (epoch milliseconds) and no expires_at property, so the
factory's expiry test compares Date.now() against NaN, which is false;
authenticate therefore never fails with TokenExpired on such a record,
at any call time, and instead succeeds with the record's tokens. -/
theorem authenticate_no_expiresAt_never_tokenExpired (env : EnvConfig) (store : Store)
    (now : Int) (sid : String) (tokens : GoogleTokens)
    (hexp : tokens.expires_at = none)
    (hstore : storeGet store ("oauth_tokens:" ++ resolveSessionId env sid) =
      some tokens.toJson) :
    getAuthenticatedClient env store now sid =
      .ok ⟨env.GOOGLE_CLIENT_ID, env.GOOGLE_CLIENT_SECRET, env.GOOGLE_REDIRECT_URI,
           tokens.access_token, tokens.refresh_token⟩ := by
  rw [getAuthenticatedClient_of_some env store now sid tokens.toJson hstore,
    ofJson_toJson]
  have hfalse : isTokenExpired now tokens = false := by
    unfold isTokenExpired
    rw [hexp]
  rw [hfalse]
  simp

/-- C5: when the code parameter is missing or is not a string (an array
value), the callback returns HTTP 400 with body
error: "Invalid authorization code", leaves the store untouched, and
attempts no token exchange — the quantification over every exchange
oracle expresses that the provider is never consulted. -/
theorem callback_invalid_code_400 (query : CallbackQuery) (store : Store)
    (freshId : String)
    (h : query.code = none ∨ ∃ l, query.code = some (.arr l)) :
    ∀ exchange : String → Except String GoogleTokens,
      callbackHandler exchange freshId query store =
        ((400, Json.obj [("error", .str "Invalid authorization code")]), store) := by
  intro exchange
  unfold callbackHandler
  rcases h with h | ⟨l, h⟩ <;> rw [h]

/-- C4 counterexample: a request carrying the valid code "ABC123" and a
state parameter whose value is the empty string. The exchange succeeds,
yet the bundle is not persisted under the session key equal to the
state value (the store has no entry for the empty-string session) and
the response's sessionId is the freshly generated id, not the state
value: state || generateSessionId() discards the empty string. -/
theorem callback_empty_state_counterexample :
    (callbackHandler (fun _ => .ok sampleProviderTokens) "uuid-1"
        ⟨some (.str "ABC123"), some (.str "")⟩ []).1.1 = 200 ∧
    getTokens "" (callbackHandler (fun _ => .ok sampleProviderTokens) "uuid-1"
        ⟨some (.str "ABC123"), some (.str "")⟩ []).2 = none ∧
    jget ((callbackHandler (fun _ => .ok sampleProviderTokens) "uuid-1"
        ⟨some (.str "ABC123"), some (.str "")⟩ []).1.2.fieldList) "sessionId" =
      some (.str "uuid-1") := by
  refine ⟨rfl, ?_, rfl⟩
  rfl

/-- C4 amended: for every completion request carrying a valid code and
a state parameter that is a non-empty string, a successful exchange
persists the bundle in the store under the session key equal to the
state value, and the success response carries that same session
identifier. -/
theorem callback_state_persistence (exchange : String → Except String GoogleTokens)
    (freshId c s : String) (store : Store) (tokens : GoogleTokens)
    (hc : c ≠ "") (hs : s ≠ "") (hex : exchange c = .ok tokens) :
    (callbackHandler exchange freshId ⟨some (.str c), some (.str s)⟩ store).1.1 = 200 ∧
    jget ((callbackHandler exchange freshId
        ⟨some (.str c), some (.str s)⟩ store).1.2.fieldList) "sessionId" =
      some (.str s) ∧
    getTokens s (callbackHandler exchange freshId
        ⟨some (.str c), some (.str s)⟩ store).2 = some tokens := by
  simp only [callbackHandler, hex, if_neg hc, if_neg hs, QueryVal.coerce, QueryVal.toJson]
  exact ⟨trivial, rfl, getTokens_storeTokens_eq s tokens store⟩

/-- C6: the auth status resource read never lets an error escape — its
catch-all handler converts every failure of the try block (store
unreachable included) into an ordinary response on the fixed resource
uri whose document reports authenticated: false with the generic
service-unavailable message. -/
theorem authResourceReadTry_ok (store : Store) :
    authResourceReadTry (.ok store) =
      match getTokens "default" store with
      | none => .ok (resourceEnvelope (authDataMissing "default"))
      | some t => .ok (resourceEnvelope (authDataPresent "default" t)) := rfl

theorem authResourceReadEnvTry_ok (env : EnvConfig) (store : Store) :
    authResourceReadEnvTry env (.ok store) =
      if env.GOOGLE_MCP_SESSION_ID = "" then
        .ok (resourceEnvelope noSessionAuthData)
      else
        match getTokens env.GOOGLE_MCP_SESSION_ID store with
        | none => .error "TypeError: cannot read scope of null"
        | some t =>
          .ok (resourceEnvelope (authDataPresentEnv env.GOOGLE_MCP_SESSION_ID t)) := rfl

theorem authResource_read_never_throws (storeResult : Except String Store) :
    (authResourceRead storeResult).contents.map ResourceContent.uri =
      ["auth://oauth/google"] ∧
    (∀ e, storeResult = .error e →
      authResourceRead storeResult = resourceEnvelope unavailableAuthData ∧
      (authResourceRead storeResult).firstDoc.getBoolField "authenticated" =
        some false) := by
  constructor
  · cases storeResult with
    | error e => rfl
    | ok store =>
      unfold authResourceRead
      rw [authResourceReadTry_ok]
      cases h : getTokens "default" store <;> rfl
  · rintro e rfl
    exact ⟨rfl, rfl⟩

/-- C9: neither read variant takes a session argument, so a caller
cannot select a session: the hard-coded variant's output depends only
on the store entry under the literal key oauth_tokens:default, and the
env-configured variant's output depends only on the configuration and
the store entry under the configured default session's key. -/
theorem authResource_read_fixed_session :
    (∀ store₁ store₂ : Store,
      storeGet store₁ "oauth_tokens:default" = storeGet store₂ "oauth_tokens:default" →
      authResourceRead (.ok store₁) = authResourceRead (.ok store₂)) ∧
    (∀ (env : EnvConfig) (store₁ store₂ : Store),
      storeGet store₁ ("oauth_tokens:" ++ env.GOOGLE_MCP_SESSION_ID) =
        storeGet store₂ ("oauth_tokens:" ++ env.GOOGLE_MCP_SESSION_ID) →
      authResourceReadEnv env (.ok store₁) = authResourceReadEnv env (.ok store₂)) := by
  constructor
  · intro store₁ store₂ h
    have hg : getTokens "default" store₁ = getTokens "default" store₂ := by
      unfold getTokens
      rw [show ("oauth_tokens:" ++ "default" : String) = "oauth_tokens:default" from rfl, h]
    unfold authResourceRead
    rw [authResourceReadTry_ok store₁, authResourceReadTry_ok store₂, hg]
  · intro env store₁ store₂ h
    have hg : getTokens env.GOOGLE_MCP_SESSION_ID store₁ =
        getTokens env.GOOGLE_MCP_SESSION_ID store₂ := by
      unfold getTokens
      rw [h]
    unfold authResourceReadEnv
    rw [authResourceReadEnvTry_ok env store₁, authResourceReadEnvTry_ok env store₂, hg]

/-- C2 counterexample: the status resource read variant that hard-codes
sessionId = "default" performs its store lookup with the literal key
oauth_tokens:default — on a store whose only entry lives under that
literal key it reports authenticated: true, and its output changes when
that entry is removed, so the literal value "default" is used as a
literal store key at this call site, contradicting the claimed
invariant. -/
theorem authResource_literal_default_key :
    (authResourceRead (.ok defaultKeyStore)).firstDoc.getBoolField "authenticated" =
      some true ∧
    (authResourceRead (.ok [])).firstDoc.getBoolField "authenticated" = some false ∧
    authResourceRead (.ok defaultKeyStore) ≠ authResourceRead (.ok []) := by
  refine ⟨rfl, rfl, ?_⟩
  intro h
  have h1 : (authResourceRead (.ok defaultKeyStore)).firstDoc.getBoolField
      "authenticated" = some true := rfl
  rw [h] at h1
  have h2 : (authResourceRead (.ok [])).firstDoc.getBoolField "authenticated" =
      some false := rfl
  rw [h2] at h1
  cases h1

theorem getAuthenticatedClientLegacy_notAuth_iff (env : EnvConfig) (store : Store)
    (now : Int) (sid : String) :
    getAuthenticatedClientLegacy env store now sid = .error notAuthenticatedMsg ↔
      storeGet store ("oauth_tokens:" ++ sid) = none := by
  unfold getAuthenticatedClientLegacy
  cases h : storeGet store ("oauth_tokens:" ++ sid) with
  | none => simp
  | some j =>
    simp only [h]
    constructor
    · intro hc
      by_cases hexp : isTokenExpired now (GoogleTokens.ofJson j)
      · rw [if_pos hexp] at hc
        exact absurd (Except.error.inj hc).symm notAuthenticatedMsg_ne_tokenExpiredMsg
      · rw [if_neg hexp] at hc
        cases hc
    · intro hc
      cases hc

/-- C2 amended: the sentinel invariant holds only at the
authenticated-client factory call sites that implement substitution:
there a supplied identifier equal to "default" is replaced by the
configured default session identifier before the store lookup, so,
provided the configured default is not itself the literal "default",
those sites never read the store under the literal key
oauth_tokens:default (the resolved key differs from "default" and the
result depends only on the entry under the resolved key). Both other
cited call sites that read the store violate the invariant: the status
resource that hard-codes sessionId = "default" (see the
counterexample), and the factory variant without substitution, whose
sessionId parameter defaults to "default" and which therefore fails
with NotAuthenticated exactly according to the literal key
oauth_tokens:default — the final conjunct exhibits that literal-key
read. -/
theorem sentinel_resolution_factory_only (env : EnvConfig) (now : Int) (sid : String)
    (store₁ store₂ : Store) (hdef : env.GOOGLE_MCP_SESSION_ID ≠ "default") :
    (resolveSessionId env sid ≠ "default" ∧
     (storeGet store₁ ("oauth_tokens:" ++ resolveSessionId env sid) =
         storeGet store₂ ("oauth_tokens:" ++ resolveSessionId env sid) →
       getAuthenticatedClient env store₁ now sid =
         getAuthenticatedClient env store₂ now sid)) ∧
    (getAuthenticatedClientLegacy env store₁ now "default" = .error notAuthenticatedMsg ↔
      storeGet store₁ "oauth_tokens:default" = none) := by
  refine ⟨⟨?_, ?_⟩, ?_⟩
  · unfold resolveSessionId
    by_cases hs : sid = "default"
    · rw [if_pos hs]
      exact hdef
    · rw [if_neg hs]
      exact hs
  · intro h
    unfold getAuthenticatedClient
    rw [h]
  · exact getAuthenticatedClientLegacy_notAuth_iff env store₁ now "default"

/-- C10: for every registered tool (any validator/handler pair) and
every argument object, the wrapper returns a single text-content
envelope and never lets an exception reach the protocol layer; when
validation or the handler throws, the returned text is the JSON
document success: false with the thrown message. -/
theorem toolCall_returns_envelope (validate handlerFn : Json → Except String Json)
    (args : Json) :
    (toolCall validate handlerFn args).content.map ToolContent.type = ["text"] ∧
    (∀ e, toolCallTry validate handlerFn args = .error e →
      toolCall validate handlerFn args =
        ⟨[⟨"text", Json.obj [("success", .bool false), ("error", .str e)]⟩]⟩) := by
  constructor
  · unfold toolCall toolCallTry
    cases hv : validate args with
    | error e => rfl
    | ok v =>
      cases hh : handlerFn v <;> simp only [hh] <;> rfl
  · intro e he
    unfold toolCall
    rw [he]

/-- Witness for C1: with the configured session holding a record whose
expires_at is 1700000000 seconds, a call at 1700000000000 milliseconds
fails with the TokenExpired error. -/
theorem getAuthenticatedClient_tokenExpired_iff_witness :
    getAuthenticatedClient wEnv (storeTokens "cfg-session" wTokens []) 1700000000000
        "default" = .error "Token expired. Please re-authenticate." :=
  (getAuthenticatedClient_tokenExpired_iff wEnv (storeTokens "cfg-session" wTokens [])
      1700000000000 "default").1.mpr
    ⟨wTokens.toJson, rfl, 1700000000, rfl, by decide⟩

/-- Witness for C3: on the empty store every session fails with the
NotAuthenticated error. -/
theorem getAuthenticatedClient_notAuthenticated_iff_witness :
    getAuthenticatedClient wEnv [] 0 "sess-1" =
      .error "No authentication tokens found. Please authenticate first." :=
  (getAuthenticatedClient_notAuthenticated_iff wEnv [] 0 "sess-1").mpr rfl

/-- Witness for the amended C2: under the concrete configuration the
sentinel resolves away from the literal "default" at the substituting
factory, while the no-substitution variant, called with its defaulted
argument on the empty store, fails according to the absent literal key
oauth_tokens:default. -/
theorem sentinel_resolution_factory_only_witness :
    resolveSessionId wEnv "default" ≠ "default" ∧
    getAuthenticatedClientLegacy wEnv [] 0 "default" = .error notAuthenticatedMsg :=
  ⟨(sentinel_resolution_factory_only wEnv 0 "default" [] [] (by decide)).1.1,
   (sentinel_resolution_factory_only wEnv 0 "default" [] [] (by decide)).2.mpr rfl⟩

/-- Witness for the amended C4, instantiating the spec scenario: code
ABC123, state sess-42, provider bundle stored under sess-42 and echoed
in the response. -/
theorem callback_state_persistence_witness :
    (callbackHandler (fun _ => .ok sampleProviderTokens) "uuid-1"
        ⟨some (.str "ABC123"), some (.str "sess-42")⟩ []).1.1 = 200 ∧
    jget ((callbackHandler (fun _ => .ok sampleProviderTokens) "uuid-1"
        ⟨some (.str "ABC123"), some (.str "sess-42")⟩ []).1.2.fieldList) "sessionId" =
      some (.str "sess-42") ∧
    getTokens "sess-42" (callbackHandler (fun _ => .ok sampleProviderTokens) "uuid-1"
        ⟨some (.str "ABC123"), some (.str "sess-42")⟩ []).2 =
      some sampleProviderTokens :=
  callback_state_persistence (fun _ => .ok sampleProviderTokens) "uuid-1" "ABC123"
    "sess-42" [] sampleProviderTokens (by decide) (by decide) rfl

/-- Witness for C5: a request with no code parameter gets the 400 body
and leaves the store empty, for a concrete exchange oracle. -/
theorem callback_invalid_code_400_witness :
    callbackHandler (fun _ => .ok sampleProviderTokens) "uuid-1" ⟨none, none⟩ [] =
      ((400, Json.obj [("error", .str "Invalid authorization code")]), []) :=
  callback_invalid_code_400 ⟨none, none⟩ [] "uuid-1" (Or.inl rfl)
    (fun _ => .ok sampleProviderTokens)

/-- Witness for C6: an unreachable store degrades to the
service-unavailable document. -/
theorem authResource_read_never_throws_witness :
    authResourceRead (.error "redis down") = resourceEnvelope unavailableAuthData :=
  ((authResource_read_never_throws (.error "redis down")).2 "redis down" rfl).1

/-- Witness for C8: the provider bundle (no expires_at) stored under the
configured session authenticates successfully at an arbitrarily late
call time. -/
theorem authenticate_no_expiresAt_never_tokenExpired_witness :
    getAuthenticatedClient wEnv (storeTokens "cfg-session" sampleProviderTokens [])
        9999999999999 "default" =
      .ok ⟨wEnv.GOOGLE_CLIENT_ID, wEnv.GOOGLE_CLIENT_SECRET, wEnv.GOOGLE_REDIRECT_URI,
           sampleProviderTokens.access_token, sampleProviderTokens.refresh_token⟩ :=
  authenticate_no_expiresAt_never_tokenExpired wEnv
    (storeTokens "cfg-session" sampleProviderTokens []) 9999999999999 "default"
    sampleProviderTokens rfl rfl

/-- Witness for C9: two stores that agree on the fixed key (neither has
it) produce identical resource reads. -/
theorem authResource_read_fixed_session_witness :
    authResourceRead (.ok [("oauth_tokens:other", wTokens.toJson)]) =
      authResourceRead (.ok []) :=
  authResource_read_fixed_session.1 [("oauth_tokens:other", wTokens.toJson)] [] rfl

/-- Witness for C10: a validator that throws yields the error envelope
instead of an exception. -/
theorem toolCall_returns_envelope_witness :
    toolCall (fun _ => .error "Invalid input") (fun j => .ok j) Json.null =
      ⟨[⟨"text", Json.obj [("success", .bool false), ("error", .str "Invalid input")]⟩]⟩ :=
  (toolCall_returns_envelope (fun _ => .error "Invalid input") (fun j => .ok j)
      Json.null).2 "Invalid input" rfl

end ExperimentMcp
